import Mathlib

/-!
Shallow embedding of the slicknode GraphQL client (`src/index.js`).

The client owns a storage backend (a string key/value store) in which it keeps
four namespaced keys: access token, access-token expiry, refresh token,
refresh-token expiry.  Since the namespace is a fixed prefix and the four key
suffixes are pairwise distinct, the storage visible to one client instance is
modelled as a record with one field per key.

JavaScript peculiarities that the claims depend on are modelled explicitly:
  * expiry keys hold the string `String(timestamp)`; `parseInt` on the
    renderings of `null` / `undefined` yields `NaN`.  `ExpStored` records
    exactly which of these strings is in the key;
  * `x || 0` coerces `null`, `NaN` and `0` to `0` (`jsOrZero`);
  * a stored empty string is falsy, so `getItem(key) || null` turns `""`
    into `null` (`jsStrOrNull`);
  * `Date.now()` is passed explicitly.  All `Date.now()` reads inside one
    synchronous segment (no intervening `await`) return the same value; the
    dispatcher takes two clock values, one before and one after the awaited
    refresh round trip.
-/

namespace Slicknode

/-- String content of an expiry storage key: `String(timestamp)` written by the
expiry setters.  `num n` is the decimal rendering of the number `n` (which
`parseInt` parses back to `n`); `nullv` and `undef` are the strings `"null"`
and `"undefined"`, on which `parseInt` returns `NaN`. -/
inductive ExpStored where
  | num (n : Int)
  | nullv
  | undef
deriving DecidableEq, Repr

/-- Argument of type `?number` (a number, `null`, or `undefined`). -/
inductive JsOptNum where
  | undef
  | null
  | num (n : Int)
deriving DecidableEq, Repr

/-- Result of the raw expiry getters: `null`, `NaN`, or a number. -/
inductive JsNullNum where
  | null
  | nan
  | num (n : Int)
deriving DecidableEq, Repr

/-- Coercion `x || 0` applied to a `null | NaN | number` value: `null`, `NaN`
and `0` are falsy and give `0`; any other number is returned unchanged. -/
def jsOrZero : JsNullNum → Int
  | JsNullNum.num n => n
  | _ => 0

/-- Truthiness test for a `?number` value: only a nonzero number is truthy. -/
def jsTruthyNum : JsOptNum → Bool
  | JsOptNum.num n => n ≠ 0
  | _ => false

/-- Coercion `getItem(key) || null`: a stored empty string is falsy and is
replaced by `null`. -/
def jsStrOrNull : Option String → Option String
  | some s => if s = "" then none else some s
  | none => none

/-- Truthiness of a `string | null` value: a non-empty string. -/
def strTruthy : Option String → Bool
  | some s => s ≠ ""
  | none => false

/-- Short-circuit `a || b` on `string | null` values. -/
def jsOrStr (a b : Option String) : Option String :=
  if strTruthy a then a else b

/-- Contents of the four namespaced storage keys owned by one client
(`<namespace>:auth:accessToken`, `…:accessTokenExpires`, `…:refreshToken`,
`…:refreshTokenExpires`).  `none` means the key is absent from storage. -/
structure ClientState where
  accessToken : Option String
  accessTokenExpires : Option ExpStored
  refreshToken : Option String
  refreshTokenExpires : Option ExpStored
deriving DecidableEq, Repr

/-- Token set as delivered by the server on login or refresh. -/
structure AuthTokenSet where
  accessToken : String
  accessTokenLifetime : Int
  refreshToken : String
  refreshTokenLifetime : Int
deriving DecidableEq, Repr

/-- Writes the refreshToken in the storage of the client (`setRefreshToken`). -/
def setRefreshToken (s : ClientState) (token : String) : ClientState :=
  { s with refreshToken := some token }

/-- Writes the access token to storage (`setAccessToken`). -/
def setAccessToken (s : ClientState) (token : String) : ClientState :=
  { s with accessToken := some token }

/-- Sets the time when the access token expires (`setAccessTokenExpires`):
a truthy timestamp is stored as `String(timestamp)`, a falsy one
(`null`, `undefined`, `0`) removes the key. -/
def setAccessTokenExpires (s : ClientState) (timestamp : JsOptNum) : ClientState :=
  if jsTruthyNum timestamp then
    match timestamp with
    | JsOptNum.num n => { s with accessTokenExpires := some (ExpStored.num n) }
    | _ => { s with accessTokenExpires := none }
  else
    { s with accessTokenExpires := none }

/-- Sets the time when the refresh token expires (`setRefreshTokenExpires`):
always stores `String(timestamp)`, even for `null` / `undefined`. -/
def setRefreshTokenExpires (s : ClientState) (timestamp : JsOptNum) : ClientState :=
  match timestamp with
  | JsOptNum.num n => { s with refreshTokenExpires := some (ExpStored.num n) }
  | JsOptNum.null => { s with refreshTokenExpires := some ExpStored.nullv }
  | JsOptNum.undef => { s with refreshTokenExpires := some ExpStored.undef }

/-- Reading an expiry key: `expires ? parseInt(expires, 10) : null`.  An absent
key gives `null`; the strings `"null"` / `"undefined"` are truthy but parse to
`NaN`; a numeric rendering parses back to the number. -/
def parseExpiry : Option ExpStored → JsNullNum
  | none => JsNullNum.null
  | some (ExpStored.num n) => JsNullNum.num n
  | some ExpStored.nullv => JsNullNum.nan
  | some ExpStored.undef => JsNullNum.nan

/-- Returns the UNIX timestamp when the access token expires
(`getAccessTokenExpires`). -/
def getAccessTokenExpires (s : ClientState) : JsNullNum :=
  parseExpiry s.accessTokenExpires

/-- Returns the UNIX timestamp when the refresh token expires
(`getRefreshTokenExpires`). -/
def getRefreshTokenExpires (s : ClientState) : JsNullNum :=
  parseExpiry s.refreshTokenExpires

/-- Returns the access token (`getAccessToken`), `null` if the expiry is in
the past; the raw read is coerced with `|| null`. -/
def getAccessToken (s : ClientState) (now : Int) : Option String :=
  if jsOrZero (getAccessTokenExpires s) < now then none
  else jsStrOrNull s.accessToken

/-- Returns the refresh token (`getRefreshToken`), `null` if the expiry is in
the past; the raw read is returned as is (no `|| null`). -/
def getRefreshToken (s : ClientState) (now : Int) : Option String :=
  if jsOrZero (getRefreshTokenExpires s) < now then none
  else s.refreshToken

/-- Updates the auth token set (`setAuthTokenSet`): absolute expiries are
`lifetime * 1000 + Date.now()`; all four keys are written. -/
def setAuthTokenSet (s : ClientState) (token : AuthTokenSet) (now : Int) : ClientState :=
  setRefreshTokenExpires
    (setRefreshToken
      (setAccessTokenExpires
        (setAccessToken s token.accessToken)
        (JsOptNum.num (token.accessTokenLifetime * 1000 + now)))
      token.refreshToken)
    (JsOptNum.num (token.refreshTokenLifetime * 1000 + now))

/-- Clears all four tokens in the storage (`logout`). -/
def logout (_s : ClientState) : ClientState :=
  { accessToken := none, accessTokenExpires := none,
    refreshToken := none, refreshTokenExpires := none }

/-- Returns true if the client has a valid access token (`hasAccessToken`). -/
def hasAccessToken (s : ClientState) (now : Int) : Bool :=
  strTruthy (getAccessToken s now)

/-- Returns true if the client has a valid refresh token (`hasRefreshToken`). -/
def hasRefreshToken (s : ClientState) (now : Int) : Bool :=
  strTruthy (getRefreshToken s now)

/-- Plain JavaScript object with string values, as an insertion-ordered
association list; a later entry for the same key overrides an earlier one. -/
abbrev Obj := List (String × String)

/-- Reads a key of an object; the last entry for the key wins. -/
def Obj.get (o : Obj) (k : String) : Option String :=
  o.foldl (fun acc kv => if kv.1 = k then some kv.2 else acc) none

/-- Object spread `{...a, ...b}`: entries of `b` override entries of `a`. -/
def mergeObj (a b : Obj) : Obj := a ++ b

/-- Property assignment `o[k] = v`: overrides any earlier entry for `k`. -/
def setKey (o : Obj) (k v : String) : Obj := o ++ [(k, v)]

/-- Constructor options of the client: the endpoint, the statically configured
headers (`headers`, default `{}`), and the optional permanent access token
(`accessToken`).  The `namespace`, `storage` and fetch `options` fields only
choose where the four keys live and how the transport is invoked; they are
absorbed by `ClientState` and the network oracle. -/
structure ClientOptions where
  endpoint : String
  headers : Obj
  accessToken : Option String
deriving DecidableEq, Repr

/-- Fixed literal text of the refresh mutation (`REFRESH_TOKEN_MUTATION`). -/
def REFRESH_TOKEN_MUTATION : String :=
  "mutation refreshToken($token: String!) \x7b\n  refreshAuthToken(input: \x7brefreshToken: $token\x7d) \x7b\n    accessToken\n    refreshToken\n    accessTokenLifetime\n    refreshTokenLifetime\n  \x7d\n\x7d"

/-- One HTTP POST issued by `fetch`: the endpoint, the final `config.headers`,
and the body content (query, variables as a string-valued object, and the
named file attachments; `files ≠ []` means a multipart body). -/
structure Request where
  endpoint : String
  headers : Obj
  query : String
  vars : List (String × String)
  files : List (String × String)
deriving DecidableEq, Repr

/-- Value of `result && result.data && result.data.refreshAuthToken` in the
parsed JSON response of a refresh call: `some ts` when the chain is present
and truthy, `none` for every other response shape. -/
structure RefreshResponse where
  refreshAuthToken : Option AuthTokenSet
deriving DecidableEq, Repr

/-- Network oracle: the parsed JSON answer the server gives to a request,
projected to the fields the refresh logic inspects. -/
abbrev Network := Request → RefreshResponse

/-- Builds the `config` of one `fetch` call from the computed auth headers:
`headers` is `{...authHeaders, ...(options.headers || {})}`; with attachments
the body is multipart form data; otherwise the body is JSON and
`Content-Type` / `Accept` are set to `application/json` afterwards
(overriding both header sources). -/
def buildRequest (opts : ClientOptions) (authHeaders : Obj) (query : String)
    (vars : List (String × String)) (files : List (String × String)) : Request :=
  let headers := mergeObj authHeaders opts.headers
  if !files.isEmpty then
    { endpoint := opts.endpoint, headers := headers,
      query := query, vars := vars, files := files }
  else
    { endpoint := opts.endpoint,
      headers := setKey (setKey headers "Content-Type" "application/json")
        "Accept" "application/json",
      query := query, vars := vars, files := files }

/-- Final `if (accessToken) return {Authorization: Bearer …}; return {}`. -/
def mkAuthHeader : Option String → Obj
  | some t => if t = "" then [] else [("Authorization", "Bearer " ++ t)]
  | none => []

/-- Computes the authorization headers (`getAuthHeaders`).  `t0` is the value
of `Date.now()` in the synchronous segment before the awaited refresh call,
`t1` its value in the segment after it.  Returns the headers, the storage
state after the call, and the list of refresh requests issued (the nested
`this.fetch(REFRESH_TOKEN_MUTATION, {token})` builds its request with empty
auth headers, since its query is the refresh mutation). -/
def getAuthHeaders (opts : ClientOptions) (net : Network) (s : ClientState)
    (t0 t1 : Int) : Obj × ClientState × List Request :=
  let accessToken := jsOrStr opts.accessToken (getAccessToken s t0)
  let refreshToken := getRefreshToken s t0
  if !strTruthy accessToken && strTruthy refreshToken then
    let req := buildRequest opts [] REFRESH_TOKEN_MUTATION
      [("token", refreshToken.getD "")] []
    let result := net req
    match result.refreshAuthToken with
    | some ts =>
      let s2 := setAuthTokenSet s ts t1
      (mkAuthHeader (getAccessToken s2 t1), s2, [req])
    | none =>
      (mkAuthHeader accessToken, logout s, [req])
  else
    (mkAuthHeader accessToken, s, [])

/-- Sends a query to the GraphQL endpoint (`fetch`).  Auth headers are
computed unless the query is the refresh mutation itself.  Returns the main
request, the storage state after the dispatch, and every request issued in
order (at most one nested refresh request, then the main request). -/
def fetch (opts : ClientOptions) (net : Network) (s : ClientState)
    (t0 t1 : Int) (query : String) (vars : List (String × String))
    (files : List (String × String)) : Request × ClientState × List Request :=
  if query = REFRESH_TOKEN_MUTATION then
    let req := buildRequest opts [] query vars files
    (req, s, [req])
  else
    let r := getAuthHeaders opts net s t0 t1
    let req := buildRequest opts r.1 query vars files
    (req, r.2.1, r.2.2 ++ [req])

/-- Constructor argument shapes distinguished by the endpoint check
`!options || typeof options.endpoint !== 'string'`. -/
inductive EndpointArg where
  | str (s : String)
  | missing
  | nonString
deriving DecidableEq, Repr

/-- Constructor guard: construction succeeds exactly when an options object is
given and its `endpoint` field is a string (`typeof … === 'string'`); any
other shape throws synchronously. -/
def constructorOk : Option EndpointArg → Bool
  | none => false
  | some (EndpointArg.str _) => true
  | some EndpointArg.missing => false
  | some EndpointArg.nonString => false

/-- First-defined choice on optional strings, used to state lookup results of
merged objects (`orElseStr a b` is `a` unless `a` is `none`). -/
def orElseStr (a b : Option String) : Option String :=
  match a with
  | some v => some v
  | none => b

/-- Example client options used by concrete witnesses: endpoint only. -/
def exOpts : ClientOptions :=
  { endpoint := "https://dummyhost", headers := [], accessToken := none }

/-- Example stored state: an expired access token next to a live refresh
token (expiries are absolute millisecond timestamps). -/
def exState : ClientState :=
  { accessToken := some "expiredtoken",
    accessTokenExpires := some (ExpStored.num 500),
    refreshToken := some "refresh123",
    refreshTokenExpires := some (ExpStored.num 2000) }

/-- Example token set returned by a successful refresh. -/
def exTs : AuthTokenSet :=
  { accessToken := "newToken", accessTokenLifetime := 23,
    refreshToken := "newRefreshToken", refreshTokenLifetime := 10 }

/-- Network that answers every request with a fresh token set `exTs`. -/
def exNetOk : Network := fun _ => { refreshAuthToken := some exTs }

/-- Network that rejects every refresh request. -/
def exNetFail : Network := fun _ => { refreshAuthToken := none }

/-- Token set with a negative access-token lifetime, as a degenerate server
answer to a refresh call. -/
def exTsNeg : AuthTokenSet :=
  { accessToken := "newToken", accessTokenLifetime := -1,
    refreshToken := "newRefreshToken", refreshTokenLifetime := 10 }

/-- Network answering every refresh request with `exTsNeg`. -/
def exNetNeg : Network := fun _ => { refreshAuthToken := some exTsNeg }

/-- Storage state with all four credential keys absent. -/
def emptyState : ClientState :=
  { accessToken := none, accessTokenExpires := none,
    refreshToken := none, refreshTokenExpires := none }

/-- Example client options with a statically configured access token. -/
def exOptsStatic : ClientOptions :=
  { endpoint := "https://dummyhost", headers := [],
    accessToken := some "static123" }

/-- State holding empty-string tokens under unexpired expiries. -/
def exStateEmptyTok : ClientState :=
  { accessToken := some "", accessTokenExpires := some (ExpStored.num 100),
    refreshToken := some "", refreshTokenExpires := some (ExpStored.num 100) }

/-- Token set whose two lifetimes are zero. -/
def exTsZero : AuthTokenSet :=
  { accessToken := "tok", accessTokenLifetime := 0,
    refreshToken := "r", refreshTokenLifetime := 0 }

/-- Token set with a positive lifetime but an empty access token string. -/
def exTsEmptyTok : AuthTokenSet :=
  { accessToken := "", accessTokenLifetime := 10,
    refreshToken := "r", refreshTokenLifetime := 10 }

end Slicknode

namespace Slicknode

/-! Helper lemmas about object lookup and the token store. -/

theorem Obj.get_foldl (k : String) (o : Obj) (acc : Option String) :
    o.foldl (fun a kv => if kv.1 = k then some kv.2 else a) acc
      = orElseStr (Obj.get o k) acc := by
  induction o generalizing acc with
  | nil => simp [Obj.get, orElseStr]
  | cons kv tl ih =>
    show List.foldl _ (if kv.1 = k then some kv.2 else acc) tl
      = orElseStr (Obj.get (kv :: tl) k) acc
    have hcons : Obj.get (kv :: tl) k
        = orElseStr (Obj.get tl k) (if kv.1 = k then some kv.2 else none) := by
      show List.foldl _ (if kv.1 = k then some kv.2 else none) tl = _
      rw [ih]
    rw [ih, hcons]
    by_cases h : kv.1 = k <;> cases htl : Obj.get tl k <;>
      simp [h, htl, orElseStr]

theorem Obj.get_append (a b : Obj) (k : String) :
    Obj.get (a ++ b) k = orElseStr (Obj.get b k) (Obj.get a k) := by
  show List.foldl _ none (a ++ b) = _
  rw [List.foldl_append]
  exact Obj.get_foldl k b _

theorem Obj.get_single_same (k v : String) : Obj.get [(k, v)] k = some v := by
  simp [Obj.get]

theorem Obj.get_single_other (k v k' : String) (h : k' ≠ k) :
    Obj.get [(k, v)] k' = none := by
  simp [Obj.get, Ne.symm h]

theorem Obj.get_setKey_same (o : Obj) (k v : String) :
    Obj.get (setKey o k v) k = some v := by
  rw [setKey, Obj.get_append, Obj.get_single_same]
  rfl

theorem Obj.get_setKey_other (o : Obj) (k v k' : String) (h : k' ≠ k) :
    Obj.get (setKey o k v) k' = Obj.get o k' := by
  rw [setKey, Obj.get_append, Obj.get_single_other k v k' h]
  rfl

theorem mergeObj_get (a b : Obj) (k : String) :
    Obj.get (mergeObj a b) k = orElseStr (Obj.get b k) (Obj.get a k) :=
  Obj.get_append a b k

theorem setAuthTokenSet_eq (s : ClientState) (ts : AuthTokenSet) (now : Int) :
    setAuthTokenSet s ts now =
      { accessToken := some ts.accessToken,
        accessTokenExpires :=
          if ts.accessTokenLifetime * 1000 + now = 0 then none
          else some (ExpStored.num (ts.accessTokenLifetime * 1000 + now)),
        refreshToken := some ts.refreshToken,
        refreshTokenExpires :=
          some (ExpStored.num (ts.refreshTokenLifetime * 1000 + now)) } := by
  by_cases h : ts.accessTokenLifetime * 1000 + now = 0 <;>
    simp [setAuthTokenSet, setAccessToken, setAccessTokenExpires,
      setRefreshToken, setRefreshTokenExpires, jsTruthyNum, h]

theorem getAccessToken_setAuthTokenSet_self (s : ClientState) (ts : AuthTokenSet)
    (now : Int) (hl : 0 ≤ ts.accessTokenLifetime) :
    getAccessToken (setAuthTokenSet s ts now) now = jsStrOrNull (some ts.accessToken) := by
  rw [setAuthTokenSet_eq]
  by_cases h : ts.accessTokenLifetime * 1000 + now = 0 <;>
    simp only [getAccessToken, getAccessTokenExpires, parseExpiry, jsOrZero, h,
      if_true, if_false, reduceIte] <;>
    rw [if_neg (by omega)]

theorem getRefreshToken_setAuthTokenSet_self (s : ClientState) (ts : AuthTokenSet)
    (now : Int) (hl : 0 ≤ ts.refreshTokenLifetime) :
    getRefreshToken (setAuthTokenSet s ts now) now = some ts.refreshToken := by
  rw [setAuthTokenSet_eq]
  simp only [getRefreshToken, getRefreshTokenExpires, parseExpiry, jsOrZero]
  rw [if_neg (by omega)]

theorem getAccessToken_setAuthTokenSet_expired (s : ClientState) (ts : AuthTokenSet)
    (now tr : Int) (h : ts.accessTokenLifetime * 1000 + now < tr ∨
      (ts.accessTokenLifetime < 0 ∧ tr = now)) :
    getAccessToken (setAuthTokenSet s ts now) tr = none := by
  rw [setAuthTokenSet_eq]
  by_cases h0 : ts.accessTokenLifetime * 1000 + now = 0 <;>
    simp only [getAccessToken, getAccessTokenExpires, parseExpiry, jsOrZero, h0,
      if_true, if_false, reduceIte] <;>
    rw [if_pos (by omega)]

theorem getRefreshToken_setAuthTokenSet_expired (s : ClientState) (ts : AuthTokenSet)
    (now tr : Int) (h : ts.refreshTokenLifetime * 1000 + now < tr) :
    getRefreshToken (setAuthTokenSet s ts now) tr = none := by
  rw [setAuthTokenSet_eq]
  simp only [getRefreshToken, getRefreshTokenExpires, parseExpiry, jsOrZero]
  rw [if_pos h]

theorem mkAuthHeader_falsy (a : Option String) (h : strTruthy a = false) :
    mkAuthHeader a = [] := by
  cases a with
  | none => rfl
  | some t =>
    simp [strTruthy] at h
    simp [mkAuthHeader, h]

/-- Every auth-header object produced by `getAuthHeaders` is `mkAuthHeader`
of some token value. -/
theorem getAuthHeaders_shape (opts : ClientOptions) (net : Network)
    (s : ClientState) (t0 t1 : Int) :
    ∃ a, (getAuthHeaders opts net s t0 t1).1 = mkAuthHeader a := by
  unfold getAuthHeaders
  by_cases hc : (!strTruthy (jsOrStr opts.accessToken (getAccessToken s t0))
      && strTruthy (getRefreshToken s t0)) = true
  · simp only [hc, if_true, reduceIte]
    cases hres : (net (buildRequest opts [] REFRESH_TOKEN_MUTATION
        [("token", (getRefreshToken s t0).getD "")] [])).refreshAuthToken with
    | some ts => exact ⟨_, rfl⟩
    | none => exact ⟨_, rfl⟩
  · simp only [Bool.not_eq_true] at hc
    simp only [hc, Bool.false_eq_true, if_false, reduceIte]
    exact ⟨_, rfl⟩

theorem mkAuthHeader_cases (a : Option String) :
    mkAuthHeader a = [] ∨
      ∃ t, t ≠ "" ∧ mkAuthHeader a = [("Authorization", "Bearer " ++ t)] := by
  cases a with
  | none => exact Or.inl rfl
  | some t =>
    by_cases h : t = ""
    · exact Or.inl (by simp [mkAuthHeader, h])
    · exact Or.inr ⟨t, h, by simp [mkAuthHeader, h]⟩

/-- Unfolding of `getAuthHeaders` in its no-refresh branch. -/
theorem getAuthHeaders_no_refresh (opts : ClientOptions) (net : Network)
    (s : ClientState) (t0 t1 : Int)
    (h : (!strTruthy (jsOrStr opts.accessToken (getAccessToken s t0))
      && strTruthy (getRefreshToken s t0)) = false) :
    getAuthHeaders opts net s t0 t1 =
      (mkAuthHeader (jsOrStr opts.accessToken (getAccessToken s t0)), s, []) := by
  unfold getAuthHeaders
  simp only [h, Bool.false_eq_true, if_false, reduceIte]

/-- Unfolding of `getAuthHeaders` when the refresh call is triggered and the
server answers with a token set. -/
theorem getAuthHeaders_refresh_success (opts : ClientOptions) (net : Network)
    (s : ClientState) (t0 t1 : Int) (rt : String) (ts : AuthTokenSet)
    (hstatic : strTruthy opts.accessToken = false)
    (haccess : strTruthy (getAccessToken s t0) = false)
    (hrt : getRefreshToken s t0 = some rt) (hrtne : rt ≠ "")
    (hnet : net (buildRequest opts [] REFRESH_TOKEN_MUTATION [("token", rt)] [])
      = { refreshAuthToken := some ts }) :
    getAuthHeaders opts net s t0 t1 =
      (mkAuthHeader (getAccessToken (setAuthTokenSet s ts t1) t1),
       setAuthTokenSet s ts t1,
       [buildRequest opts [] REFRESH_TOKEN_MUTATION [("token", rt)] []]) := by
  unfold getAuthHeaders
  rw [jsOrStr, hstatic]
  simp only [Bool.false_eq_true, if_false, reduceIte, haccess, hrt]
  simp [strTruthy, hrtne, hnet]

/-- Unfolding of `getAuthHeaders` when the refresh call is triggered and the
server answer has no `data.refreshAuthToken`. -/
theorem getAuthHeaders_refresh_failure (opts : ClientOptions) (net : Network)
    (s : ClientState) (t0 t1 : Int) (rt : String)
    (hstatic : strTruthy opts.accessToken = false)
    (haccess : strTruthy (getAccessToken s t0) = false)
    (hrt : getRefreshToken s t0 = some rt) (hrtne : rt ≠ "")
    (hnet : net (buildRequest opts [] REFRESH_TOKEN_MUTATION [("token", rt)] [])
      = { refreshAuthToken := none }) :
    getAuthHeaders opts net s t0 t1 =
      ([], logout s,
       [buildRequest opts [] REFRESH_TOKEN_MUTATION [("token", rt)] []]) := by
  unfold getAuthHeaders
  rw [jsOrStr, hstatic]
  simp only [Bool.false_eq_true, if_false, reduceIte, haccess, hrt]
  simp [strTruthy, hrtne, hnet, mkAuthHeader_falsy _ haccess]

/-- Unfolding of `fetch` for a non-refresh query. -/
theorem fetch_not_refresh (opts : ClientOptions) (net : Network) (s : ClientState)
    (t0 t1 : Int) (query : String) (vars files : List (String × String))
    (hq : query ≠ REFRESH_TOKEN_MUTATION) :
    fetch opts net s t0 t1 query vars files =
      (buildRequest opts (getAuthHeaders opts net s t0 t1).1 query vars files,
       (getAuthHeaders opts net s t0 t1).2.1,
       (getAuthHeaders opts net s t0 t1).2.2 ++
         [buildRequest opts (getAuthHeaders opts net s t0 t1).1 query vars files]) := by
  simp [fetch, hq]

theorem buildRequest_headers_json (opts : ClientOptions) (ah : Obj)
    (query : String) (vars : List (String × String)) :
    (buildRequest opts ah query vars []).headers.get "Content-Type"
        = some "application/json" ∧
      (buildRequest opts ah query vars []).headers.get "Accept"
        = some "application/json" := by
  constructor
  · simp only [buildRequest, List.isEmpty_nil, Bool.not_true, Bool.false_eq_true,
      if_false, reduceIte]
    rw [Obj.get_setKey_other _ _ _ _ (by decide), Obj.get_setKey_same]
  · simp only [buildRequest, List.isEmpty_nil, Bool.not_true, Bool.false_eq_true,
      if_false, reduceIte]
    rw [Obj.get_setKey_same]

theorem buildRequest_headers_get (opts : ClientOptions) (ah : Obj)
    (query : String) (vars files : List (String × String)) (k : String)
    (hk1 : k ≠ "Content-Type") (hk2 : k ≠ "Accept") :
    (buildRequest opts ah query vars files).headers.get k
      = orElseStr (opts.headers.get k) (ah.get k) := by
  unfold buildRequest
  cases hf : files.isEmpty with
  | true =>
    simp only [hf, Bool.not_true, Bool.false_eq_true, if_false, reduceIte]
    rw [Obj.get_setKey_other _ _ _ _ hk2, Obj.get_setKey_other _ _ _ _ hk1]
    exact mergeObj_get ah opts.headers k
  | false =>
    simp only [hf, Bool.not_false, if_true, reduceIte]
    exact mergeObj_get ah opts.headers k

theorem buildRequest_headers_multipart (opts : ClientOptions) (ah : Obj)
    (query : String) (vars files : List (String × String)) (k : String)
    (hf : files ≠ []) :
    (buildRequest opts ah query vars files).headers.get k
      = orElseStr (opts.headers.get k) (ah.get k) := by
  have hfb : files.isEmpty = false := by
    cases files with
    | nil => exact absurd rfl hf
    | cons a l => rfl
  unfold buildRequest
  simp only [hfb, Bool.not_false, if_true, reduceIte]
  exact mergeObj_get ah opts.headers k

end Slicknode

set_option maxRecDepth 100000

namespace Slicknode

/-! Claim theorems. -/

theorem buildRequest_query (opts : ClientOptions) (ah : Obj) (q : String)
    (vars files : List (String × String)) :
    (buildRequest opts ah q vars files).query = q := by
  unfold buildRequest
  split <;> rfl

theorem orElseStr_none (a : Option String) : orElseStr a none = a := by
  cases a <;> rfl

theorem Obj.get_nil (k : String) : Obj.get [] k = none := rfl

/-- C1 (amended): if the stored access token is unusable (and no static access
token is configured) but the stored refresh token is usable, a non-refresh
dispatch issues exactly one refresh call — a dispatch of the refresh mutation
with variables `{token: <stored refresh token>}` — and when the refresh
response contains `data.refreshAuthToken`, the token set is persisted via
`setAuthTokenSet`; the new access token becomes the Bearer token of the main
request provided it is non-empty and its lifetime is nonnegative (a response
with a negative lifetime is persisted but yields an unauthenticated main
request, see the counterexample). -/
theorem claim1_refresh_success (opts : ClientOptions) (net : Network)
    (s : ClientState) (t0 t1 : Int) (query : String)
    (vars files : List (String × String)) (rt : String) (ts : AuthTokenSet)
    (hq : query ≠ REFRESH_TOKEN_MUTATION)
    (hstatic : strTruthy opts.accessToken = false)
    (haccess : strTruthy (getAccessToken s t0) = false)
    (hrt : getRefreshToken s t0 = some rt) (hrtne : rt ≠ "")
    (hnet : net (buildRequest opts [] REFRESH_TOKEN_MUTATION [("token", rt)] [])
      = { refreshAuthToken := some ts })
    (hlife : 0 ≤ ts.accessTokenLifetime) (hne : ts.accessToken ≠ "") :
    (fetch opts net s t0 t1 query vars files).2.2
        = [buildRequest opts [] REFRESH_TOKEN_MUTATION [("token", rt)] [],
           (fetch opts net s t0 t1 query vars files).1]
      ∧ ((fetch opts net s t0 t1 query vars files).2.2.filter
          (fun r => r.query == REFRESH_TOKEN_MUTATION)).length = 1
      ∧ (buildRequest opts [] REFRESH_TOKEN_MUTATION [("token", rt)] []).vars
          = [("token", rt)]
      ∧ (fetch opts net s t0 t1 query vars files).2.1 = setAuthTokenSet s ts t1
      ∧ (getAuthHeaders opts net s t0 t1).1
          = [("Authorization", "Bearer " ++ ts.accessToken)]
      ∧ (fetch opts net s t0 t1 query vars files).1.headers.get "Authorization"
          = orElseStr (opts.headers.get "Authorization")
              (some ("Bearer " ++ ts.accessToken)) := by
  have hget : getAccessToken (setAuthTokenSet s ts t1) t1 = some ts.accessToken := by
    rw [getAccessToken_setAuthTokenSet_self s ts t1 hlife]
    simp [jsStrOrNull, hne]
  have hgah : getAuthHeaders opts net s t0 t1
      = ([("Authorization", "Bearer " ++ ts.accessToken)], setAuthTokenSet s ts t1,
         [buildRequest opts [] REFRESH_TOKEN_MUTATION [("token", rt)] []]) := by
    rw [getAuthHeaders_refresh_success opts net s t0 t1 rt ts hstatic haccess hrt
      hrtne hnet, hget]
    simp [mkAuthHeader, hne]
  rw [fetch_not_refresh opts net s t0 t1 query vars files hq, hgah]
  refine ⟨rfl, ?_, rfl, rfl, rfl, ?_⟩
  · have h1 : ((buildRequest opts [] REFRESH_TOKEN_MUTATION [("token", rt)] []).query
        == REFRESH_TOKEN_MUTATION) = true := by
      rw [buildRequest_query]
      exact beq_self_eq_true _
    have h2 : ((buildRequest opts [("Authorization", "Bearer " ++ ts.accessToken)]
        query vars files).query == REFRESH_TOKEN_MUTATION) = false := by
      rw [buildRequest_query]
      exact beq_eq_false_iff_ne.mpr hq
    simp [List.filter, h1, h2]
  · rw [buildRequest_headers_get opts _ query vars files "Authorization"
      (by decide) (by decide), Obj.get_single_same]

/-- C1 counterexample: a refresh response that does contain
`data.refreshAuthToken` but with `accessTokenLifetime = -1` is persisted via
`setAuthTokenSet`, yet the main request of the very same dispatch carries no
`Authorization` header at all, contradicting the claim that the new access
token is used as the Bearer token of the main request. -/
theorem claim1_counterexample :
    (fetch exOpts exNetNeg exState 1000 1100 "q" [] []).2.1
        = setAuthTokenSet exState exTsNeg 1100
      ∧ (fetch exOpts exNetNeg exState 1000 1100 "q" [] []).2.2.length = 2
      ∧ (fetch exOpts exNetNeg exState 1000 1100 "q" [] []).1.headers.get
          "Authorization" = none := by
  decide

/-- C1 witness: the amended theorem applied to the concrete refresh scenario
of the repository's test suite (expired access token at `t0 = 1000`, live
refresh token `refresh123`, server answering with `exTs`). -/
theorem claim1_witness :
    (fetch exOpts exNetOk exState 1000 1100 "query Node" [("id", "123")] []).2.2
        = [buildRequest exOpts [] REFRESH_TOKEN_MUTATION [("token", "refresh123")] [],
           (fetch exOpts exNetOk exState 1000 1100 "query Node" [("id", "123")] []).1]
      ∧ ((fetch exOpts exNetOk exState 1000 1100 "query Node" [("id", "123")] []).2.2.filter
          (fun r => r.query == REFRESH_TOKEN_MUTATION)).length = 1
      ∧ (buildRequest exOpts [] REFRESH_TOKEN_MUTATION [("token", "refresh123")] []).vars
          = [("token", "refresh123")]
      ∧ (fetch exOpts exNetOk exState 1000 1100 "query Node" [("id", "123")] []).2.1
          = setAuthTokenSet exState exTs 1100
      ∧ (getAuthHeaders exOpts exNetOk exState 1000 1100).1
          = [("Authorization", "Bearer " ++ exTs.accessToken)]
      ∧ (fetch exOpts exNetOk exState 1000 1100
          "query Node" [("id", "123")] []).1.headers.get "Authorization"
          = orElseStr (exOpts.headers.get "Authorization")
              (some ("Bearer " ++ exTs.accessToken)) :=
  claim1_refresh_success exOpts exNetOk exState 1000 1100 "query Node"
    [("id", "123")] [] "refresh123" exTs (by decide) (by decide) (by decide)
    (by decide) (by decide) rfl (by decide) (by decide)

/-- C2: when the refresh call is made and its response has no
`data.refreshAuthToken`, all four stored credential fields are removed via
`logout`, the main request is dispatched with no computed `Authorization`
header (its `Authorization` header is exactly whatever the statically
configured headers provide, i.e. nothing is contributed by the auth
computation), and no error is raised — the whole dispatch is a total
function of the inputs in this embedding. -/
theorem claim2_refresh_failure_logout (opts : ClientOptions) (net : Network)
    (s : ClientState) (t0 t1 : Int) (query : String)
    (vars files : List (String × String)) (rt : String)
    (hq : query ≠ REFRESH_TOKEN_MUTATION)
    (hstatic : strTruthy opts.accessToken = false)
    (haccess : strTruthy (getAccessToken s t0) = false)
    (hrt : getRefreshToken s t0 = some rt) (hrtne : rt ≠ "")
    (hnet : net (buildRequest opts [] REFRESH_TOKEN_MUTATION [("token", rt)] [])
      = { refreshAuthToken := none }) :
    (fetch opts net s t0 t1 query vars files).2.1 = logout s
      ∧ logout s = emptyState
      ∧ (getAuthHeaders opts net s t0 t1).1 = []
      ∧ (fetch opts net s t0 t1 query vars files).2.2
          = [buildRequest opts [] REFRESH_TOKEN_MUTATION [("token", rt)] [],
             (fetch opts net s t0 t1 query vars files).1]
      ∧ (fetch opts net s t0 t1 query vars files).1.headers.get "Authorization"
          = opts.headers.get "Authorization" := by
  have hgah := getAuthHeaders_refresh_failure opts net s t0 t1 rt hstatic haccess
    hrt hrtne hnet
  rw [fetch_not_refresh opts net s t0 t1 query vars files hq, hgah]
  refine ⟨rfl, rfl, rfl, rfl, ?_⟩
  rw [buildRequest_headers_get opts [] query vars files "Authorization"
    (by decide) (by decide), Obj.get_nil, orElseStr_none]

/-- C2 witness: the failing-refresh scenario at a concrete state (expired
access token, live refresh token, server answering without a token set). -/
theorem claim2_witness :
    (fetch exOpts exNetFail exState 1000 1100 "query Node" [] []).2.1
        = logout exState
      ∧ logout exState = emptyState
      ∧ (getAuthHeaders exOpts exNetFail exState 1000 1100).1 = []
      ∧ (fetch exOpts exNetFail exState 1000 1100 "query Node" [] []).2.2
          = [buildRequest exOpts [] REFRESH_TOKEN_MUTATION
               [("token", "refresh123")] [],
             (fetch exOpts exNetFail exState 1000 1100 "query Node" [] []).1]
      ∧ (fetch exOpts exNetFail exState 1000 1100
          "query Node" [] []).1.headers.get "Authorization"
          = exOpts.headers.get "Authorization" :=
  claim2_refresh_failure_logout exOpts exNetFail exState 1000 1100 "query Node"
    [] [] "refresh123" (by decide) (by decide) (by decide) (by decide)
    (by decide) rfl

/-- C3: with a statically configured non-empty access token, a non-refresh
dispatch uses that token unconditionally: the computed auth headers are
exactly `Authorization: Bearer <configured token>` independently of the
stored state (which is therefore never consulted for the access token), no
refresh request is issued, and the storage state is unchanged. -/
theorem claim3_static_token (opts : ClientOptions) (net : Network)
    (s : ClientState) (t0 t1 : Int) (query : String)
    (vars files : List (String × String)) (tok : String)
    (htok : opts.accessToken = some tok) (hne : tok ≠ "")
    (hq : query ≠ REFRESH_TOKEN_MUTATION) :
    getAuthHeaders opts net s t0 t1
        = ([("Authorization", "Bearer " ++ tok)], s, [])
      ∧ (fetch opts net s t0 t1 query vars files).2.2
          = [(fetch opts net s t0 t1 query vars files).1]
      ∧ ((fetch opts net s t0 t1 query vars files).2.2.filter
          (fun r => r.query == REFRESH_TOKEN_MUTATION)).length = 0
      ∧ (fetch opts net s t0 t1 query vars files).2.1 = s
      ∧ (fetch opts net s t0 t1 query vars files).1.headers.get "Authorization"
          = orElseStr (opts.headers.get "Authorization")
              (some ("Bearer " ++ tok)) := by
  have hA : jsOrStr opts.accessToken (getAccessToken s t0) = some tok := by
    rw [htok]
    simp [jsOrStr, strTruthy, hne]
  have hcond : (!strTruthy (jsOrStr opts.accessToken (getAccessToken s t0))
      && strTruthy (getRefreshToken s t0)) = false := by
    rw [hA]
    simp [strTruthy, hne]
  have hgah : getAuthHeaders opts net s t0 t1
      = ([("Authorization", "Bearer " ++ tok)], s, []) := by
    rw [getAuthHeaders_no_refresh opts net s t0 t1 hcond, hA]
    simp [mkAuthHeader, hne]
  rw [fetch_not_refresh opts net s t0 t1 query vars files hq, hgah]
  refine ⟨rfl, rfl, ?_, rfl, ?_⟩
  · have h2 : ((buildRequest opts [("Authorization", "Bearer " ++ tok)]
        query vars files).query == REFRESH_TOKEN_MUTATION) = false := by
      rw [buildRequest_query]
      exact beq_eq_false_iff_ne.mpr hq
    simp [List.filter, h2]
  · rw [buildRequest_headers_get opts _ query vars files "Authorization"
      (by decide) (by decide), Obj.get_single_same]

/-- C3 witness: a client with static token `static123` over a state holding
an expired access token and a live refresh token; the dispatch never touches
the stored credentials. -/
theorem claim3_witness :
    getAuthHeaders exOptsStatic exNetFail exState 1000 1100
        = ([("Authorization", "Bearer " ++ "static123")], exState, [])
      ∧ (fetch exOptsStatic exNetFail exState 1000 1100 "query Node" [] []).2.2
          = [(fetch exOptsStatic exNetFail exState 1000 1100 "query Node" [] []).1]
      ∧ ((fetch exOptsStatic exNetFail exState 1000 1100 "query Node" [] []).2.2.filter
          (fun r => r.query == REFRESH_TOKEN_MUTATION)).length = 0
      ∧ (fetch exOptsStatic exNetFail exState 1000 1100 "query Node" [] []).2.1
          = exState
      ∧ (fetch exOptsStatic exNetFail exState 1000 1100
          "query Node" [] []).1.headers.get "Authorization"
          = orElseStr (exOptsStatic.headers.get "Authorization")
              (some ("Bearer " ++ "static123")) :=
  claim3_static_token exOptsStatic exNetFail exState 1000 1100
    "query Node" [] [] "static123" rfl (by decide) (by decide)

/-- C7: a dispatch whose query is the refresh-token mutation computes no
authorization headers at all: it issues exactly its own request, leaves the
storage untouched (whatever stale or valid tokens it holds), and the
`Authorization` header of the request is exactly what the statically
configured headers provide (nothing is contributed by the auth path). -/
theorem claim7_refresh_dispatch_unauthenticated (opts : ClientOptions)
    (net : Network) (s : ClientState) (t0 t1 : Int)
    (vars files : List (String × String)) :
    (fetch opts net s t0 t1 REFRESH_TOKEN_MUTATION vars files).2.2
        = [(fetch opts net s t0 t1 REFRESH_TOKEN_MUTATION vars files).1]
      ∧ (fetch opts net s t0 t1 REFRESH_TOKEN_MUTATION vars files).2.1 = s
      ∧ (fetch opts net s t0 t1
          REFRESH_TOKEN_MUTATION vars files).1.headers.get "Authorization"
          = opts.headers.get "Authorization" := by
  have hf : fetch opts net s t0 t1 REFRESH_TOKEN_MUTATION vars files
      = (buildRequest opts [] REFRESH_TOKEN_MUTATION vars files, s,
         [buildRequest opts [] REFRESH_TOKEN_MUTATION vars files]) := by
    simp [fetch]
  rw [hf]
  refine ⟨rfl, rfl, ?_⟩
  rw [buildRequest_headers_get opts [] REFRESH_TOKEN_MUTATION vars files
    "Authorization" (by decide) (by decide), Obj.get_nil, orElseStr_none]

/-- C4 (amended): with a numeric stored expiry, `getRefreshToken` returns the
stored refresh token exactly when the expiry is not strictly less than the
current time (an expiry equal to `now` is still valid), and an expired read
returns absent without deleting the stored value; `getAccessToken` obeys the
same comparator except that an empty stored access token reads back as
absent even under a valid expiry (the raw read is coerced with `|| null`),
see the counterexample. -/
theorem claim4_expiry_gated (s : ClientState) (now e er : Int) (t tr : String)
    (hae : s.accessTokenExpires = some (ExpStored.num e))
    (hat : s.accessToken = some t)
    (hre : s.refreshTokenExpires = some (ExpStored.num er))
    (hrt : s.refreshToken = some tr) :
    (getAccessToken s now = some t ↔ (now ≤ e ∧ t ≠ ""))
      ∧ (getRefreshToken s now = some tr ↔ now ≤ er)
      ∧ (e < now → getAccessToken s now = none)
      ∧ (er < now → getRefreshToken s now = none) := by
  unfold getAccessToken getRefreshToken getAccessTokenExpires getRefreshTokenExpires
  rw [hae, hre, hat, hrt]
  simp only [parseExpiry, jsOrZero]
  refine ⟨?_, ?_, ?_, ?_⟩
  · by_cases h : e < now
    · simp only [h, if_true, reduceIte]
      exact iff_of_false (by simp) (fun hc => absurd hc.1 (by omega))
    · simp only [h, if_false, reduceIte]
      by_cases ht : t = ""
      · subst ht
        exact iff_of_false (by simp [jsStrOrNull]) (fun hc => hc.2 rfl)
      · exact iff_of_true (by simp [jsStrOrNull, ht]) ⟨by omega, ht⟩
  · by_cases h : er < now
    · rw [if_pos h]
      exact iff_of_false (by simp) (by omega)
    · rw [if_neg h]
      exact iff_of_true rfl (by omega)
  · intro h
    simp [h]
  · intro h
    simp [h]

/-- C4 counterexample: an empty access token stored under a valid expiry
(100, read at time 50) is not returned — `getAccessToken` yields absent even
though the stored expiry is not strictly less than the current time, while
the refresh-side getter does return the stored empty string. -/
theorem claim4_counterexample :
    getAccessToken exStateEmptyTok 50 = none
      ∧ exStateEmptyTok.accessToken = some ""
      ∧ ¬ ((100 : Int) < 50)
      ∧ getRefreshToken exStateEmptyTok 50 = some "" := by
  decide

/-- C4 witness: the amended comparator at the boundary `now = expiry`. -/
theorem claim4_witness :
    (getAccessToken exState 500 = some "expiredtoken"
        ↔ ((500 : Int) ≤ 500 ∧ "expiredtoken" ≠ ""))
      ∧ (getRefreshToken exState 500 = some "refresh123" ↔ (500 : Int) ≤ 2000) :=
  ⟨(claim4_expiry_gated exState 500 500 2000 "expiredtoken" "refresh123"
      rfl rfl rfl rfl).1,
   (claim4_expiry_gated exState 500 500 2000 "expiredtoken" "refresh123"
      rfl rfl rfl rfl).2.1⟩

/-- C5 (amended): after `setAuthTokenSet` with nonpositive lifetimes, a
strictly negative lifetime makes the corresponding token absent already at
the instant of the call, and any nonpositive lifetime makes it absent at
every strictly later read; in all cases the raw storage still holds the set
token values.  A zero lifetime, however, leaves the token readable at the
very instant of the call (expiry equal to now is treated as valid), see the
counterexample. -/
theorem claim5_nonpositive_lifetimes (s : ClientState) (ts : AuthTokenSet)
    (now tr : Int)
    (ha : ts.accessTokenLifetime ≤ 0) (hr : ts.refreshTokenLifetime ≤ 0)
    (htr : now < tr) :
    (ts.accessTokenLifetime < 0 →
        getAccessToken (setAuthTokenSet s ts now) now = none)
      ∧ (ts.refreshTokenLifetime < 0 →
          getRefreshToken (setAuthTokenSet s ts now) now = none)
      ∧ getAccessToken (setAuthTokenSet s ts now) tr = none
      ∧ getRefreshToken (setAuthTokenSet s ts now) tr = none
      ∧ (setAuthTokenSet s ts now).accessToken = some ts.accessToken
      ∧ (setAuthTokenSet s ts now).refreshToken = some ts.refreshToken := by
  refine ⟨?_, ?_, ?_, ?_, ?_, ?_⟩
  · intro h
    exact getAccessToken_setAuthTokenSet_expired s ts now now (Or.inr ⟨h, rfl⟩)
  · intro h
    exact getRefreshToken_setAuthTokenSet_expired s ts now now (by omega)
  · exact getAccessToken_setAuthTokenSet_expired s ts now tr (Or.inl (by omega))
  · exact getRefreshToken_setAuthTokenSet_expired s ts now tr (by omega)
  · rw [setAuthTokenSet_eq]
  · rw [setAuthTokenSet_eq]

/-- C5 counterexample: a token set with both lifetimes zero is readable
immediately after `setAuthTokenSet` at the same clock value — both getters
return the set tokens, contradicting the claim that they return absent. -/
theorem claim5_counterexample :
    exTsZero.accessTokenLifetime = 0 ∧ exTsZero.refreshTokenLifetime = 0
      ∧ getAccessToken (setAuthTokenSet emptyState exTsZero 1000) 1000 = some "tok"
      ∧ getRefreshToken (setAuthTokenSet emptyState exTsZero 1000) 1000 = some "r" := by
  decide

/-- C5 witness: zero lifetimes set at time 1000, read at time 1001. -/
theorem claim5_witness :
    getAccessToken (setAuthTokenSet emptyState exTsZero 1000) 1001 = none
      ∧ getRefreshToken (setAuthTokenSet emptyState exTsZero 1000) 1001 = none
      ∧ (setAuthTokenSet emptyState exTsZero 1000).accessToken
          = some exTsZero.accessToken
      ∧ (setAuthTokenSet emptyState exTsZero 1000).refreshToken
          = some exTsZero.refreshToken :=
  (claim5_nonpositive_lifetimes emptyState exTsZero 1000 1001
    (by decide) (by decide) (by decide)).2.2

/-- C6 (amended): immediately after `setAuthTokenSet` with positive
lifetimes (at a nonnegative clock value), `getRefreshToken` returns the set
refresh token, `getAccessToken` returns the set access token provided it is
a non-empty string (an empty one reads back as absent, see the
counterexample), and both raw expiries are `lifetime * 1000 + now`, strictly
greater than the time of the call. -/
theorem claim6_set_then_get (s : ClientState) (ts : AuthTokenSet) (now : Int)
    (ha : 0 < ts.accessTokenLifetime) (hr : 0 < ts.refreshTokenLifetime)
    (hnow : 0 ≤ now) :
    (ts.accessToken ≠ "" →
        getAccessToken (setAuthTokenSet s ts now) now = some ts.accessToken)
      ∧ (ts.accessToken = "" →
          getAccessToken (setAuthTokenSet s ts now) now = none)
      ∧ getRefreshToken (setAuthTokenSet s ts now) now = some ts.refreshToken
      ∧ getAccessTokenExpires (setAuthTokenSet s ts now)
          = JsNullNum.num (ts.accessTokenLifetime * 1000 + now)
      ∧ getRefreshTokenExpires (setAuthTokenSet s ts now)
          = JsNullNum.num (ts.refreshTokenLifetime * 1000 + now)
      ∧ now < ts.accessTokenLifetime * 1000 + now
      ∧ now < ts.refreshTokenLifetime * 1000 + now := by
  have h0 : ¬ ts.accessTokenLifetime * 1000 + now = 0 := by omega
  refine ⟨?_, ?_, ?_, ?_, ?_, by omega, by omega⟩
  · intro h
    rw [getAccessToken_setAuthTokenSet_self s ts now (le_of_lt ha)]
    simp [jsStrOrNull, h]
  · intro h
    rw [getAccessToken_setAuthTokenSet_self s ts now (le_of_lt ha)]
    simp [jsStrOrNull, h]
  · exact getRefreshToken_setAuthTokenSet_self s ts now (le_of_lt hr)
  · rw [setAuthTokenSet_eq]
    simp [getAccessTokenExpires, parseExpiry, h0]
  · rw [setAuthTokenSet_eq]
    rfl

/-- C6 counterexample: a token set with positive lifetimes but an empty
access token string is not read back — `getAccessToken` returns absent
immediately after `setAuthTokenSet`, though the raw key holds `""`. -/
theorem claim6_counterexample :
    (0 : Int) < exTsEmptyTok.accessTokenLifetime
      ∧ getAccessToken (setAuthTokenSet emptyState exTsEmptyTok 1000) 1000 = none
      ∧ (setAuthTokenSet emptyState exTsEmptyTok 1000).accessToken = some "" := by
  decide

/-- C6 witness: the set-then-get round trip for the concrete set `exTs`. -/
theorem claim6_witness :
    getRefreshToken (setAuthTokenSet emptyState exTs 1000) 1000
        = some exTs.refreshToken
      ∧ getAccessTokenExpires (setAuthTokenSet emptyState exTs 1000)
          = JsNullNum.num (exTs.accessTokenLifetime * 1000 + 1000)
      ∧ getRefreshTokenExpires (setAuthTokenSet emptyState exTs 1000)
          = JsNullNum.num (exTs.refreshTokenLifetime * 1000 + 1000)
      ∧ (1000 : Int) < exTs.accessTokenLifetime * 1000 + 1000
      ∧ (1000 : Int) < exTs.refreshTokenLifetime * 1000 + 1000 :=
  (claim6_set_then_get emptyState exTs 1000
    (by decide) (by decide) (by decide)).2.2

/-- C8 (amended): construction succeeds exactly when an options object is
given whose endpoint field is a string — the check is `typeof endpoint !==
'string'`, so missing options, a missing endpoint and a non-string endpoint
throw synchronously, but the empty string endpoint is accepted (contrary to
the claim, see the counterexample). -/
theorem claim8_constructor_guard (arg : Option EndpointArg) :
    constructorOk arg = true ↔ ∃ str, arg = some (EndpointArg.str str) := by
  cases arg with
  | none => simp [constructorOk]
  | some e => cases e <;> simp [constructorOk]

/-- C8 counterexample: the empty string is a string, so a client constructed
with `endpoint: ""` passes the guard even though the claim requires every
non-non-empty-string endpoint to be rejected. -/
theorem claim8_counterexample :
    constructorOk (some (EndpointArg.str "")) = true := by
  decide

/-- C9 (amended): the request headers are the merge of the computed auth
headers with the statically configured headers, the static ones winning on a
key collision — except that a dispatch without file attachments afterwards
forces `Content-Type` and `Accept` to `application/json`, overriding both
sources (see the counterexample); and the computed auth headers carry an
`Authorization` entry only when a usable non-empty token was obtained, in
which case its value is exactly `Bearer <token>`. -/
theorem claim9_header_merge (opts : ClientOptions) (net : Network)
    (s : ClientState) (t0 t1 : Int) (query : String)
    (vars files : List (String × String))
    (hq : query ≠ REFRESH_TOKEN_MUTATION) :
    (∀ k, k ≠ "Content-Type" → k ≠ "Accept" →
        (fetch opts net s t0 t1 query vars files).1.headers.get k
          = orElseStr (opts.headers.get k)
              ((getAuthHeaders opts net s t0 t1).1.get k))
      ∧ (files = [] →
          (fetch opts net s t0 t1 query vars files).1.headers.get "Content-Type"
              = some "application/json"
            ∧ (fetch opts net s t0 t1 query vars files).1.headers.get "Accept"
              = some "application/json")
      ∧ (files ≠ [] → ∀ k,
          (fetch opts net s t0 t1 query vars files).1.headers.get k
            = orElseStr (opts.headers.get k)
                ((getAuthHeaders opts net s t0 t1).1.get k))
      ∧ ((getAuthHeaders opts net s t0 t1).1 = []
          ∨ ∃ tok, tok ≠ "" ∧ (getAuthHeaders opts net s t0 t1).1
              = [("Authorization", "Bearer " ++ tok)]) := by
  rw [fetch_not_refresh opts net s t0 t1 query vars files hq]
  refine ⟨?_, ?_, ?_, ?_⟩
  · intro k hk1 hk2
    exact buildRequest_headers_get opts _ query vars files k hk1 hk2
  · intro hf
    subst hf
    exact buildRequest_headers_json opts _ query vars
  · intro hf k
    exact buildRequest_headers_multipart opts _ query vars files k hf
  · obtain ⟨a, ha⟩ := getAuthHeaders_shape opts net s t0 t1
    rw [ha]
    exact mkAuthHeader_cases a

/-- C9 counterexample: in a JSON-mode dispatch (no attachments) the final
request headers are not equal to the merge of the computed auth headers with
the static headers — `Content-Type: application/json` is present in the
request although absent from the merge. -/
theorem claim9_counterexample :
    (fetch exOpts exNetFail emptyState 1000 1000 "q" [] []).1.headers.get
        "Content-Type" = some "application/json"
      ∧ Obj.get (mergeObj (getAuthHeaders exOpts exNetFail emptyState 1000 1000).1
          exOpts.headers) "Content-Type" = none := by
  decide

/-- C9 witness: the amended merge description at a concrete guest dispatch. -/
theorem claim9_witness :
    (fetch exOpts exNetFail emptyState 1000 1000 "q" [] []).1.headers.get
        "Authorization"
        = orElseStr (exOpts.headers.get "Authorization")
            ((getAuthHeaders exOpts exNetFail emptyState 1000 1000).1.get
              "Authorization")
      ∧ (fetch exOpts exNetFail emptyState 1000 1000 "q" [] []).1.headers.get
          "Content-Type" = some "application/json"
      ∧ (fetch exOpts exNetFail emptyState 1000 1000 "q" [] []).1.headers.get
          "Accept" = some "application/json" :=
  ⟨(claim9_header_merge exOpts exNetFail emptyState 1000 1000 "q" [] []
      (by decide)).1 "Authorization" (by decide) (by decide),
   ((claim9_header_merge exOpts exNetFail emptyState 1000 1000 "q" [] []
      (by decide)).2.1 rfl).1,
   ((claim9_header_merge exOpts exNetFail emptyState 1000 1000 "q" [] []
      (by decide)).2.1 rfl).2⟩

/-- C10: the two expiry setters are asymmetric on falsy timestamps — a
`null`, `undefined` or `0` access-token expiry removes the key, after which
`getAccessTokenExpires` is `null`; a `null` or `undefined` refresh-token
expiry is stored as the string rendering of that value, after which
`getRefreshTokenExpires` parses to `NaN` rather than absent. -/
theorem claim10_expiry_setter_asymmetry (s : ClientState) :
    getAccessTokenExpires (setAccessTokenExpires s JsOptNum.null) = JsNullNum.null
      ∧ getAccessTokenExpires (setAccessTokenExpires s JsOptNum.undef)
          = JsNullNum.null
      ∧ getAccessTokenExpires (setAccessTokenExpires s (JsOptNum.num 0))
          = JsNullNum.null
      ∧ (setAccessTokenExpires s JsOptNum.null).accessTokenExpires = none
      ∧ getRefreshTokenExpires (setRefreshTokenExpires s JsOptNum.null)
          = JsNullNum.nan
      ∧ getRefreshTokenExpires (setRefreshTokenExpires s JsOptNum.undef)
          = JsNullNum.nan
      ∧ (setRefreshTokenExpires s JsOptNum.null).refreshTokenExpires
          = some ExpStored.nullv :=
  ⟨rfl, rfl, rfl, rfl, rfl, rfl, rfl⟩

end Slicknode
